import Mathlib

/-!
Shallow embedding of the language metadata registry from
`src/src/language.rs` of lingua-rs, together with proofs about the
registry's catalogued data: the closed `Language` enumeration, the four
total lookups (`iso_code_639_1`, `iso_code_639_3`, `alphabets`,
`unique_characters`) and the textual deserialization boundary.
-/

namespace Lingua

/-- The externally defined enumeration of writing systems referenced by
`language.rs` (`crate::alphabet::Alphabet`); only the constructors the
registry actually uses are referenced there. -/
inductive Alphabet where
  | Arabic
  | Armenian
  | Bengali
  | Cyrillic
  | Devanagari
  | Georgian
  | Greek
  | Gujarati
  | Gurmukhi
  | Han
  | Hangul
  | Hebrew
  | Hiragana
  | Katakana
  | Latin
  | Tamil
  | Telugu
  | Thai
deriving DecidableEq, Repr

/-- The externally defined enumeration of ISO 639-1 two-letter codes
(`crate::isocode::IsoCode639_1`), restricted to the values `language.rs`
maps into. -/
inductive IsoCode639_1 where
  | AF | SQ | AR | HY | AZ | EU | BE | BN | BS | BG
  | CA | ZH | HR | CS | DA | NL | EN | EO | ET | FI
  | FR | KA | DE | EL | GU | HE | HI | HU | IS | ID
  | GA | IT | JA | KK | KO | LA | LV | LT | MK | MS
  | MR | MN | NO | FA | PL | PT | PA | RO | RU | SR
  | SK | SL | SO | ES | SW | SV | TL | TA | TE | TH
  | TR | UK | UR | VI | CY | YO | ZU
deriving DecidableEq, Repr

/-- The externally defined enumeration of ISO 639-3 three-letter codes
(`crate::isocode::IsoCode639_3`), restricted to the values `language.rs`
maps into. -/
inductive IsoCode639_3 where
  | AFR | SQI | ARA | HYE | AZE | EUS | BEL | BEN | BOS | BUL
  | CAT | ZHO | HRV | CES | DAN | NLD | ENG | EPO | EST | FIN
  | FRA | KAT | DEU | ELL | GUJ | HEB | HIN | HUN | ISL | IND
  | GLE | ITA | JPN | KAZ | KOR | LAT | LAV | LIT | MKD | MSA
  | MAR | MON | NOR | FAS | POL | POR | PAN | RON | RUS | SRP
  | SLK | SLV | SOM | SPA | SWA | SWE | TGL | TAM | TEL | THA
  | TUR | UKR | URD | VIE | CYM | YOR | ZUL
deriving DecidableEq, Repr

/-- The closed `Language` enumeration of `language.rs`, constructors in
declaration order. -/
inductive Language where
  | Afrikaans
  | Albanian
  | Arabic
  | Armenian
  | Azerbaijani
  | Basque
  | Belarusian
  | Bengali
  | Bosnian
  | Bulgarian
  | Catalan
  | Chinese
  | Croatian
  | Czech
  | Danish
  | Dutch
  | English
  | Esperanto
  | Estonian
  | Finnish
  | French
  | Georgian
  | German
  | Greek
  | Gujarati
  | Hebrew
  | Hindi
  | Hungarian
  | Icelandic
  | Indonesian
  | Irish
  | Italian
  | Japanese
  | Kazakh
  | Korean
  | Latin
  | Latvian
  | Lithuanian
  | Macedonian
  | Malay
  | Marathi
  | Mongolian
  | Norwegian
  | Persian
  | Polish
  | Portuguese
  | Punjabi
  | Romanian
  | Russian
  | Serbian
  | Slovak
  | Slovene
  | Somali
  | Spanish
  | Swahili
  | Swedish
  | Tagalog
  | Tamil
  | Telugu
  | Thai
  | Turkish
  | Ukrainian
  | Urdu
  | Vietnamese
  | Welsh
  | Yoruba
  | Zulu
deriving DecidableEq, Repr, Fintype

/-- The iteration over the `Language` enumeration provided by the
`EnumIter` derive in `language.rs` (strum): every constructor once, in
declaration order. -/
def Language.all_languages : List Language :=
  [ .Afrikaans, .Albanian, .Arabic, .Armenian, .Azerbaijani, .Basque,
    .Belarusian, .Bengali, .Bosnian, .Bulgarian, .Catalan, .Chinese,
    .Croatian, .Czech, .Danish, .Dutch, .English, .Esperanto, .Estonian,
    .Finnish, .French, .Georgian, .German, .Greek, .Gujarati, .Hebrew,
    .Hindi, .Hungarian, .Icelandic, .Indonesian, .Irish, .Italian,
    .Japanese, .Kazakh, .Korean, .Latin, .Latvian, .Lithuanian,
    .Macedonian, .Malay, .Marathi, .Mongolian, .Norwegian, .Persian,
    .Polish, .Portuguese, .Punjabi, .Romanian, .Russian, .Serbian,
    .Slovak, .Slovene, .Somali, .Spanish, .Swahili, .Swedish, .Tagalog,
    .Tamil, .Telugu, .Thai, .Turkish, .Ukrainian, .Urdu, .Vietnamese,
    .Welsh, .Yoruba, .Zulu ]

/-- Embedding of `Language::iso_code_639_1` from `language.rs`. -/
def Language.iso_code_639_1 : Language → IsoCode639_1
  | .Afrikaans => .AF
  | .Albanian => .SQ
  | .Arabic => .AR
  | .Armenian => .HY
  | .Azerbaijani => .AZ
  | .Basque => .EU
  | .Belarusian => .BE
  | .Bengali => .BN
  | .Bosnian => .BS
  | .Bulgarian => .BG
  | .Catalan => .CA
  | .Chinese => .ZH
  | .Croatian => .HR
  | .Czech => .CS
  | .Danish => .DA
  | .Dutch => .NL
  | .English => .EN
  | .Esperanto => .EO
  | .Estonian => .ET
  | .Finnish => .FI
  | .French => .FR
  | .Georgian => .KA
  | .German => .DE
  | .Greek => .EL
  | .Gujarati => .GU
  | .Hebrew => .HE
  | .Hindi => .HI
  | .Hungarian => .HU
  | .Icelandic => .IS
  | .Indonesian => .ID
  | .Irish => .GA
  | .Italian => .IT
  | .Japanese => .JA
  | .Kazakh => .KK
  | .Korean => .KO
  | .Latin => .LA
  | .Latvian => .LV
  | .Lithuanian => .LT
  | .Macedonian => .MK
  | .Malay => .MS
  | .Marathi => .MR
  | .Mongolian => .MN
  | .Norwegian => .NO
  | .Persian => .FA
  | .Polish => .PL
  | .Portuguese => .PT
  | .Punjabi => .PA
  | .Romanian => .RO
  | .Russian => .RU
  | .Serbian => .SR
  | .Slovak => .SK
  | .Slovene => .SL
  | .Somali => .SO
  | .Spanish => .ES
  | .Swahili => .SW
  | .Swedish => .SV
  | .Tagalog => .TL
  | .Tamil => .TA
  | .Telugu => .TE
  | .Thai => .TH
  | .Turkish => .TR
  | .Ukrainian => .UK
  | .Urdu => .UR
  | .Vietnamese => .VI
  | .Welsh => .CY
  | .Yoruba => .YO
  | .Zulu => .ZU

/-- Embedding of `Language::iso_code_639_3` from `language.rs`. -/
def Language.iso_code_639_3 : Language → IsoCode639_3
  | .Afrikaans => .AFR
  | .Albanian => .SQI
  | .Arabic => .ARA
  | .Armenian => .HYE
  | .Azerbaijani => .AZE
  | .Basque => .EUS
  | .Belarusian => .BEL
  | .Bengali => .BEN
  | .Bosnian => .BOS
  | .Bulgarian => .BUL
  | .Catalan => .CAT
  | .Chinese => .ZHO
  | .Croatian => .HRV
  | .Czech => .CES
  | .Danish => .DAN
  | .Dutch => .NLD
  | .English => .ENG
  | .Esperanto => .EPO
  | .Estonian => .EST
  | .Finnish => .FIN
  | .French => .FRA
  | .Georgian => .KAT
  | .German => .DEU
  | .Greek => .ELL
  | .Gujarati => .GUJ
  | .Hebrew => .HEB
  | .Hindi => .HIN
  | .Hungarian => .HUN
  | .Icelandic => .ISL
  | .Indonesian => .IND
  | .Irish => .GLE
  | .Italian => .ITA
  | .Japanese => .JPN
  | .Kazakh => .KAZ
  | .Korean => .KOR
  | .Latin => .LAT
  | .Latvian => .LAV
  | .Lithuanian => .LIT
  | .Macedonian => .MKD
  | .Malay => .MSA
  | .Marathi => .MAR
  | .Mongolian => .MON
  | .Norwegian => .NOR
  | .Persian => .FAS
  | .Polish => .POL
  | .Portuguese => .POR
  | .Punjabi => .PAN
  | .Romanian => .RON
  | .Russian => .RUS
  | .Serbian => .SRP
  | .Slovak => .SLK
  | .Slovene => .SLV
  | .Somali => .SOM
  | .Spanish => .SPA
  | .Swahili => .SWA
  | .Swedish => .SWE
  | .Tagalog => .TGL
  | .Tamil => .TAM
  | .Telugu => .TEL
  | .Thai => .THA
  | .Turkish => .TUR
  | .Ukrainian => .UKR
  | .Urdu => .URD
  | .Vietnamese => .VIE
  | .Welsh => .CYM
  | .Yoruba => .YOR
  | .Zulu => .ZUL

/-- Embedding of `Language::alphabets` from `language.rs`; the source
returns a `HashSet<Alphabet>`, embedded here as a `Finset Alphabet`. -/
def Language.alphabets : Language → Finset Alphabet
  | .Afrikaans | .Albanian | .Azerbaijani | .Basque | .Bosnian | .Catalan
  | .Croatian | .Czech | .Danish | .Dutch | .English | .Esperanto
  | .Estonian | .Finnish | .French | .German | .Hungarian | .Icelandic
  | .Indonesian | .Irish | .Italian | .Latin | .Latvian | .Lithuanian
  | .Malay | .Norwegian | .Polish | .Portuguese | .Romanian | .Slovak
  | .Slovene | .Somali | .Spanish | .Swahili | .Swedish | .Tagalog
  | .Turkish | .Vietnamese | .Welsh | .Yoruba | .Zulu => {Alphabet.Latin}
  | .Belarusian | .Bulgarian | .Kazakh | .Macedonian | .Mongolian
  | .Russian | .Serbian | .Ukrainian => {Alphabet.Cyrillic}
  | .Arabic | .Persian | .Urdu => {Alphabet.Arabic}
  | .Hindi | .Marathi => {Alphabet.Devanagari}
  | .Armenian => {Alphabet.Armenian}
  | .Bengali => {Alphabet.Bengali}
  | .Chinese => {Alphabet.Han}
  | .Georgian => {Alphabet.Georgian}
  | .Greek => {Alphabet.Greek}
  | .Gujarati => {Alphabet.Gujarati}
  | .Hebrew => {Alphabet.Hebrew}
  | .Japanese => {Alphabet.Hiragana, Alphabet.Katakana, Alphabet.Han}
  | .Korean => {Alphabet.Hangul}
  | .Punjabi => {Alphabet.Gurmukhi}
  | .Tamil => {Alphabet.Tamil}
  | .Telugu => {Alphabet.Telugu}
  | .Thai => {Alphabet.Thai}

/-- Embedding of `Language::unique_characters` from `language.rs`; the
source returns a `&str`, embedded as a `String`. The wildcard arm of the
source match returns the empty string. -/
def Language.unique_characters : Language → String
  | .Albanian => "Ëë"
  | .Azerbaijani => "Əə"
  | .Catalan => "Ïï"
  | .Czech => "ĚěŘřŮů"
  | .Esperanto => "ĈĉĜĝĤĥĴĵŜŝŬŭ"
  | .German => "ß"
  | .Hungarian => "ŐőŰű"
  | .Kazakh => "ӘәҒғҚқҢңҰұ"
  | .Latvian => "ĢģĶķĻļŅņ"
  | .Lithuanian => "ĖėĮįŲų"
  | .Macedonian => "ЃѓЅѕЌќЏџ"
  | .Marathi => "ळ"
  | .Mongolian => "ӨөҮү"
  | .Polish => "ŁłŃńŚśŹź"
  | .Romanian => "Țţ"
  | .Serbian => "ЂђЋћ"
  | .Slovak => "ĹĺĽľŔŕ"
  | .Spanish => "¿¡"
  | .Ukrainian => "ҐґЄєЇї"
  | .Vietnamese => "ẰằẦầẲẳẨẩẴẵẪẫẮắẤấẠạẶặẬậỀềẺẻỂểẼẽỄễẾếỆệỈỉĨĩỊịƠơỒồỜờỎỏỔổỞởỖỗỠỡỐốỚớỘộỢợƯưỪừỦủỬửŨũỮữỨứỤụỰựỲỳỶỷỸỹỴỵ"
  | .Yoruba => "ŌōṢṣ"
  | _ => ""

/-- The textual name of each `Language` variant exactly as declared in
`language.rs` (the identifier of the enum constructor). -/
def Language.name : Language → String
  | .Afrikaans => "Afrikaans"
  | .Albanian => "Albanian"
  | .Arabic => "Arabic"
  | .Armenian => "Armenian"
  | .Azerbaijani => "Azerbaijani"
  | .Basque => "Basque"
  | .Belarusian => "Belarusian"
  | .Bengali => "Bengali"
  | .Bosnian => "Bosnian"
  | .Bulgarian => "Bulgarian"
  | .Catalan => "Catalan"
  | .Chinese => "Chinese"
  | .Croatian => "Croatian"
  | .Czech => "Czech"
  | .Danish => "Danish"
  | .Dutch => "Dutch"
  | .English => "English"
  | .Esperanto => "Esperanto"
  | .Estonian => "Estonian"
  | .Finnish => "Finnish"
  | .French => "French"
  | .Georgian => "Georgian"
  | .German => "German"
  | .Greek => "Greek"
  | .Gujarati => "Gujarati"
  | .Hebrew => "Hebrew"
  | .Hindi => "Hindi"
  | .Hungarian => "Hungarian"
  | .Icelandic => "Icelandic"
  | .Indonesian => "Indonesian"
  | .Irish => "Irish"
  | .Italian => "Italian"
  | .Japanese => "Japanese"
  | .Kazakh => "Kazakh"
  | .Korean => "Korean"
  | .Latin => "Latin"
  | .Latvian => "Latvian"
  | .Lithuanian => "Lithuanian"
  | .Macedonian => "Macedonian"
  | .Malay => "Malay"
  | .Marathi => "Marathi"
  | .Mongolian => "Mongolian"
  | .Norwegian => "Norwegian"
  | .Persian => "Persian"
  | .Polish => "Polish"
  | .Portuguese => "Portuguese"
  | .Punjabi => "Punjabi"
  | .Romanian => "Romanian"
  | .Russian => "Russian"
  | .Serbian => "Serbian"
  | .Slovak => "Slovak"
  | .Slovene => "Slovene"
  | .Somali => "Somali"
  | .Spanish => "Spanish"
  | .Swahili => "Swahili"
  | .Swedish => "Swedish"
  | .Tagalog => "Tagalog"
  | .Tamil => "Tamil"
  | .Telugu => "Telugu"
  | .Thai => "Thai"
  | .Turkish => "Turkish"
  | .Ukrainian => "Ukrainian"
  | .Urdu => "Urdu"
  | .Vietnamese => "Vietnamese"
  | .Welsh => "Welsh"
  | .Yoruba => "Yoruba"
  | .Zulu => "Zulu"

/-- ASCII uppercasing, as serde's `UPPERCASE` rename rule applies it to
the (all-ASCII) variant identifiers of `language.rs`. -/
def upperAscii (s : String) : String :=
  String.mk (s.data.map (fun c =>
    if 0x61 ≤ c.toNat && c.toNat ≤ 0x7A then Char.ofNat (c.toNat - 32) else c))

/-- The serde deserialization token of a `Language`: `language.rs` carries
the derive attribute `#[serde(rename_all(deserialize = "UPPERCASE"))]`, so
the token accepted for a variant is its declared name rendered in
uppercase. -/
def Language.serde_token (l : Language) : String :=
  upperAscii l.name

/-- The error surfaced by the textual deserialization boundary, carrying
the offending input text. Modelled from the spec: the generated serde
deserializer (not part of this repository) rejects an unknown token with
an unknown-variant error holding the input; the spec names this condition
`UnrecognizedLanguage`. -/
inductive ParseError where
  | UnrecognizedLanguage (input : String)
deriving DecidableEq, Repr

/-- The textual deserialization boundary of `Language`. Modelled from the
spec: the deserializer itself is generated by the serde derive in
`language.rs` and is not part of this repository; per the derive attribute
`rename_all(deserialize = "UPPERCASE")`, the input token is compared
verbatim against the uppercase-rendered variant names, and a token
matching none of them is rejected with the error carrying the input. -/
def Language.parse (s : String) : Except ParseError Language :=
  match Language.all_languages.find? (fun l => l.serde_token == s) with
  | some l => .ok l
  | none => .error (.UnrecognizedLanguage s)

/-- Modelled from the spec: the spec requires catalogued unique characters
to be "valid letters/marks" but the repository contains no character
classifier. This predicate is the Unicode general-category classes Letter
and Mark restricted to the code-point blocks occurring in the catalogued
data (Basic Latin, Latin-1 Supplement, Latin Extended-A/B, IPA Extensions,
Cyrillic, Devanagari, Latin Extended Additional); punctuation such as
U+00A1 and U+00BF is excluded, exactly as in Unicode. -/
def isLetterOrMark (c : Char) : Bool :=
  let n := c.toNat
  (0x41 ≤ n && n ≤ 0x5A) || (0x61 ≤ n && n ≤ 0x7A) ||
  n == 0xAA || n == 0xB5 || n == 0xBA ||
  (0xC0 ≤ n && n ≤ 0xD6) || (0xD8 ≤ n && n ≤ 0xF6) ||
  (0xF8 ≤ n && n ≤ 0x2AF) ||
  (0x400 ≤ n && n ≤ 0x4FF && n != 0x482) ||
  (0x900 ≤ n && n ≤ 0x963) ||
  (0x1E00 ≤ n && n ≤ 0x1EFF)

end Lingua

deriving instance DecidableEq for Except

set_option maxRecDepth 1000000

namespace Lingua

/-- If no language's serde token equals the input, `parse` rejects it with
the error carrying the input text. -/
theorem parse_eq_error_of_no_token (s : String)
    (h : ∀ l : Language, Language.serde_token l ≠ s) :
    Language.parse s = .error (.UnrecognizedLanguage s) := by
  unfold Language.parse
  cases hf : Language.all_languages.find? (fun l => l.serde_token == s) with
  | none => rfl
  | some l =>
    have hp := List.find?_some hf
    simp only [beq_iff_eq] at hp
    exact absurd hp (h l)

/-- Claim C1 (counterexample): the `Language` enumeration of
`language.rs` has 67 constructors, not the 65 the claim states, so
`all_languages()` yields 67 values. -/
theorem C1_counterexample :
    Language.all_languages.length = 67 ∧ Language.all_languages.length ≠ 65 := by
  decide

/-- Claim C1 (amended): `all_languages()` yields exactly 67 distinct
values, with no duplicates, and covers the whole closed `Language`
enumeration; as a pure constant list it is the same on every call. -/
theorem C1_all_languages_closure :
    Language.all_languages.length = 67 ∧ Language.all_languages.Nodup ∧
      ∀ l : Language, l ∈ Language.all_languages := by
  decide

/-- Claim C2: for all pairs of distinct languages, both
`iso_code_639_1` and `iso_code_639_3` assign distinct codes; the two
mappings are each injective over the full language set. -/
theorem C2_iso_codes_injective :
    ∀ l1 l2 : Language, l1 ≠ l2 →
      l1.iso_code_639_1 ≠ l2.iso_code_639_1 ∧
      l1.iso_code_639_3 ≠ l2.iso_code_639_3 := by
  decide

/-- Witness for C2 at the concrete pair (English, French). -/
theorem C2_iso_codes_injective_witness :
    Language.English.iso_code_639_1 ≠ Language.French.iso_code_639_1 ∧
      Language.English.iso_code_639_3 ≠ Language.French.iso_code_639_3 :=
  C2_iso_codes_injective Language.English Language.French (by decide)

/-- Claim C3: `alphabets` returns a non-empty set of writing systems for
every language in the catalogue. -/
theorem C3_alphabets_nonempty :
    ∀ l : Language, (l.alphabets).Nonempty := by
  decide

/-- Claim C4: Japanese is the only language whose `alphabets` set is not
a singleton; its set is exactly the three writing systems Hiragana,
Katakana and Han, and Chinese (mapping solely to Han) returns a
singleton. -/
theorem C4_multi_script_case :
    (∀ l : Language, l ≠ Language.Japanese → (l.alphabets).card = 1) ∧
      Language.alphabets Language.Japanese =
        {Alphabet.Hiragana, Alphabet.Katakana, Alphabet.Han} ∧
      (Language.alphabets Language.Japanese).card = 3 ∧
      Language.alphabets Language.Chinese = {Alphabet.Han} := by
  decide

/-- Witness for C4 at the concrete language Chinese. -/
theorem C4_multi_script_case_witness :
    (Language.alphabets Language.Chinese).card = 1 :=
  C4_multi_script_case.1 Language.Chinese (by decide)

/-- Claim C5 (counterexample): Spanish's catalogued unique characters are
the inverted punctuation marks, which are not letters or marks, so not
every language's `unique_characters` sequence consists of letters/marks
only. -/
theorem C5_counterexample :
    '¿' ∈ (Language.unique_characters Language.Spanish).data ∧
      '¡' ∈ (Language.unique_characters Language.Spanish).data ∧
      isLetterOrMark '¿' = false ∧ isLetterOrMark '¡' = false := by
  decide

/-- Claim C5 (amended): for every language except Spanish, every
character of `unique_characters` is a letter or mark; Spanish's sequence
consists of the two punctuation characters U+00BF and U+00A1; the empty
string is a returned value (e.g. for English), not an error. -/
theorem C5_unique_characters_letters :
    (∀ l : Language, l ≠ Language.Spanish →
        (l.unique_characters).data.all isLetterOrMark = true) ∧
      Language.unique_characters Language.Spanish = "¿¡" ∧
      Language.unique_characters Language.English = "" := by
  decide

/-- Witness for C5 at the concrete language German. -/
theorem C5_unique_characters_letters_witness :
    (Language.unique_characters Language.German).data.all isLetterOrMark = true :=
  C5_unique_characters_letters.1 Language.German (by decide)

/-- Claim C6 (counterexample): `parse` is not case-insensitive: the
variant name in its declared mixed casing is rejected, because the serde
rename rule makes the deserializer accept only the uppercase rendering. -/
theorem C6_counterexample :
    Language.name Language.Afrikaans = "Afrikaans" ∧
      Language.parse "Afrikaans" =
        .error (.UnrecognizedLanguage "Afrikaans") := by
  decide

/-- Claim C6 (amended): `parse` accepts exactly the uppercase rendering
of a language's textual name, compared verbatim, and returns the matching
tag; any other input, including other casings of a name, fails with
`UnrecognizedLanguage` carrying the input. -/
theorem C6_parse_uppercase_tokens :
    (∀ l : Language, Language.parse l.serde_token = .ok l) ∧
      ∀ s : String, (∀ l : Language, Language.serde_token l ≠ s) →
        Language.parse s = .error (.UnrecognizedLanguage s) := by
  refine ⟨by decide, ?_⟩
  intro s h
  exact parse_eq_error_of_no_token s h

/-- Witness for C6 at the concrete non-token input. -/
theorem C6_parse_uppercase_tokens_witness :
    Language.parse "LINGUA" = .error (.UnrecognizedLanguage "LINGUA") :=
  C6_parse_uppercase_tokens.2 "LINGUA" (by decide)

/-- Claim C7: round-trip: for every language, parsing the uppercased
textual name returns that language; a token equal to no language's
uppercased name fails with the single error kind `UnrecognizedLanguage`
carrying the offending input. -/
theorem C7_parse_round_trip :
    (∀ l : Language, Language.parse (upperAscii l.name) = .ok l) ∧
      ∀ s : String, (∀ l : Language, upperAscii l.name ≠ s) →
        Language.parse s = .error (.UnrecognizedLanguage s) := by
  refine ⟨by decide, ?_⟩
  intro s h
  exact parse_eq_error_of_no_token s h

/-- Witness for C7 at German and at a concrete non-matching token. -/
theorem C7_parse_round_trip_witness :
    Language.parse (upperAscii (Language.name Language.German)) =
        .ok Language.German ∧
      Language.parse "XYZ" = .error (.UnrecognizedLanguage "XYZ") :=
  ⟨C7_parse_round_trip.1 Language.German,
   C7_parse_round_trip.2 "XYZ" (by decide)⟩

/-- Claim C8: the four core lookups are total over the closed `Language`
domain: every constructible `Language` value is one of the 67 catalogued
ones, and each lookup returns a result on it. In this embedding all four
lookups are plain (non-optional) functions defined by exhaustive match,
exactly as the source's exhaustive pattern matches, so no error branch
exists. -/
theorem C8_lookups_total :
    ∀ l : Language, l ∈ Language.all_languages ∧
      (∃ c, l.iso_code_639_1 = c) ∧ (∃ c, l.iso_code_639_3 = c) ∧
      (∃ a, l.alphabets = a) ∧ (∃ u, l.unique_characters = u) := by
  intro l
  refine ⟨by revert l; decide, ⟨_, rfl⟩, ⟨_, rfl⟩, ⟨_, rfl⟩, ⟨_, rfl⟩⟩

/-- Claim C9: the `unique_characters` sequences of distinct languages
share no character: each catalogued character belongs to exactly one
language. -/
theorem C9_unique_characters_disjoint :
    ∀ l1 l2 : Language, l1 ≠ l2 →
      ∀ c ∈ (l1.unique_characters).data, c ∉ (l2.unique_characters).data := by
  decide

/-- Witness for C9 at the concrete pair (German, Polish) and the
character U+00DF. -/
theorem C9_unique_characters_disjoint_witness :
    'ß' ∉ (Language.unique_characters Language.Polish).data :=
  C9_unique_characters_disjoint Language.German Language.Polish (by decide)
    'ß' (by decide)

/-- Claim C10: a language with a non-empty `unique_characters` sequence
has a singleton `alphabets` set; the one multi-script language, Japanese,
has the empty sequence. -/
theorem C10_unique_characters_single_script :
    (∀ l : Language, l.unique_characters ≠ "" → (l.alphabets).card = 1) ∧
      Language.unique_characters Language.Japanese = "" := by
  decide

/-- Witness for C10 at the concrete language German. -/
theorem C10_unique_characters_single_script_witness :
    (Language.alphabets Language.German).card = 1 :=
  C10_unique_characters_single_script.1 Language.German (by decide)

end Lingua
